import Mathlib

/-!
Verification of the oneandone docker-machine driver.

This file is a shallow embedding of the driver code (the newest revision of
the driver source plus utils.go). The remote 1&1 CloudServer REST client is
an external collaborator; it is modelled as a record of response oracles
(`API`). Every call the driver makes against the client is logged as an
`Event`, so that theorems can count or locate remote calls. Blocking calls
(`WaitForState`, `WaitUntilDeleted`, the readiness probes) have no error
result in the driver; they are modelled as trace events and assumed to
terminate. Go methods mutate the receiver `*Driver` in place; here every
operation returns the updated `Driver` record explicitly. A Go runtime
panic (index out of range on `server.Ips[0]`, nil dereference after an
ignored `GetServer` error) is modelled as the distinguished outcome
`Outcome.crash`, which is not an error return.
-/

namespace OneAndOne

abbrev Err := String

/-- Base image resource (`oaocs.ServerAppliance`). -/
structure Appliance where
  Id : String
  Name : String
deriving DecidableEq

/-- Firewall policy handle (`oaocs.FirewallPolicy`). -/
structure Firewall where
  Id : String
  Name : String
deriving DecidableEq

/-- One entry of a server address list (`server.Ips[i]`, field `Ip`). -/
structure ServerIp where
  Ip : String
deriving DecidableEq

/-- Nested status of a server (`server.Status.State`). -/
structure ServerStatus where
  State : String
deriving DecidableEq

/-- Server handle (`oaocs.Server`): id, name, status, address list, initial root password. -/
structure Server where
  Id : String
  Name : String
  Status : ServerStatus
  Ips : List ServerIp
  Password : String
deriving DecidableEq

/-- Firewall rule creation data (`oaocs.FirewallPolicyRulesCreateData`). -/
structure FirewallRuleData where
  Protocol : String
  PortFrom : Int
  PortTo : Int
  SourceIp : String
deriving DecidableEq

/-- Firewall policy creation data (`oaocs.FirewallPolicyCreateData`). -/
structure FirewallPolicyCreateData where
  Name : String
  Description : String
  Rules : List FirewallRuleData
deriving DecidableEq

/-- Disk description (`oaocs.Hdd`). -/
structure Hdd where
  IsMain : Bool
  Size : Int
deriving DecidableEq

/-- Hardware sizing (`oaocs.Hardware`). -/
structure Hardware where
  CoresPerProcessor : Int
  Vcores : Int
  Ram : Int
  Hdds : List Hdd
deriving DecidableEq

/-- Server creation data (`oaocs.ServerCreateData`). -/
structure ServerCreateData where
  Name : String
  Description : String
  ApplianceId : String
  FirewallPolicyId : String
  hardware : Hardware
  PowerOn : Bool
deriving DecidableEq

/-- The driver record (`type Driver struct` of the newest revision). -/
structure Driver where
  Endpoint : String
  AccessToken : String
  VmId : String
  FirewallId : String
  MachineName : String
  CaCertPath : String
  PrivateKeyPath : String
  StorePath : String
  IPAddress : String
  Cores : Int
  Ram : Int
  Ssd : Int
deriving DecidableEq

/-- The abstract machine-state enum (`github.com/docker/machine/state`). -/
inductive MachineState
  | None
  | Starting
  | Running
  | Paused
  | Saved
  | Stopped
  | Stopping
  | Error
deriving DecidableEq

/-- One call issued by the driver against the remote client (or a local
bootstrap step). Delete calls are the events counted by the cleanup
theorems. -/
inductive Event
  | serverApplianceFindNewest (os distro variant : String) (bits : Int) (onlyAvailable : Bool)
  | createFirewallPolicy (data : FirewallPolicyCreateData)
  | createServer (data : ServerCreateData)
  | getFirewallPolicy (id : String)
  | getServer (id : String)
  | deleteFirewall (id : String)
  | deleteServer (id : String)
  | waitFirewallState (id target : String)
  | waitServerState (id target : String)
  | waitFirewallDeleted (id : String)
  | waitServerDeleted (id : String)
  | serverStart (id : String)
  | serverShutdown (id : String) (force : Bool)
  | serverReboot (id : String) (force : Bool)
  | generateSSHKey (path : String)
  | waitForServerReady (id : String)
  | installSshKey (id : String)
deriving DecidableEq

/-- Response oracles of the remote client. The driver rebuilds the client
from `d.AccessToken`/`d.Endpoint` on every call (`getAPI`); since those
fields never change during an operation, one fixed oracle record models
all those client instances. On an error result the Go client returns a nil
handle, modelled by the `Except.error` branch carrying no handle. -/
structure API where
  ServerApplianceFindNewest : Except Err Appliance
  CreateFirewallPolicy : FirewallPolicyCreateData → Except Err Firewall
  CreateServer : ServerCreateData → Except Err Server
  GetFirewallPolicy : String → Except Err Firewall
  GetServer : String → Except Err Server
  FirewallDelete : String → Except Err Firewall
  ServerDelete : String → Except Err Server
  ServerStart : String → Except Err Unit
  ServerShutdown : String → Bool → Except Err Unit
  ServerReboot : String → Bool → Except Err Unit

/-- Environment of `Create`: the remote client plus the results of the
local collaborators. `generateSSHKey` is `ssh.GenerateSSHKey` (local disk,
external package); `waitForServerReady` is the result of
`Driver.WaitForServerReady` (SSH probes only, no remote-client call, its
result is discarded by `Create`); `installSshKey` is the result of
`Driver.installSshKey` (file read plus SSH session, no remote-client call,
no record mutation). -/
structure Env where
  api : API
  generateSSHKey : Except Err Unit
  waitForServerReady : Except Err Unit
  installSshKey : Except Err Unit

/-- Final outcome of an operation: normal return without error, an error
return, or a Go runtime panic. -/
inductive Outcome
  | ok
  | err (e : Err)
  | crash (msg : String)
deriving DecidableEq

structure RunResult where
  driver : Driver
  outcome : Outcome
  events : List Event
deriving DecidableEq

structure RemoveResult where
  driver : Driver
  err : Option Err
  events : List Event
deriving DecidableEq

structure OpResult where
  err : Option Err
  events : List Event
deriving DecidableEq

structure ConfigResult where
  driver : Driver
  err : Option Err
  events : List Event
deriving DecidableEq

structure StateResult where
  st : MachineState
  err : Option Err
  events : List Event
deriving DecidableEq

/-- Sizing bounds (the `const` block of the driver). -/
def minCores : Int := 1

def maxCores : Int := 16

def minRam : Int := 1

def maxRam : Int := 128

def minSsd : Int := 20

def maxSsd : Int := 500

def stepSsd : Int := 20

/-- `Driver.GetSSHKeyPath`: `filepath.Join(d.StorePath, "id_rsa")`. -/
def GetSSHKeyPath (d : Driver) : String := d.StorePath ++ "/id_rsa"

/-- The switch of `Driver.GetState` on `vm.Status.State`. Go cases do not
fall through: `REBOOTING`, `REMOVING` and `CONFIGURING` have empty bodies,
so control leaves the switch and reaches the trailing
`return state.None, nil`; only `DEPLOYING` returns `state.Error`. -/
def reconcileStatus (s : String) : MachineState :=
  if s = "POWERING_ON" then .Starting
  else if s = "REBOOTING" then .None
  else if s = "POWERED_ON" then .Running
  else if s = "POWERED_OFF" then .Stopped
  else if s = "POWERING_OFF" then .Stopping
  else if s = "REMOVING" then .None
  else if s = "CONFIGURING" then .None
  else if s = "DEPLOYING" then .Error
  else .None

/-- `Driver.GetState`: fetch the server by the stored id; on a fetch error
return `state.None` plus the error, otherwise map the remote status. -/
def GetState (d : Driver) (api : API) : StateResult :=
  match api.GetServer d.VmId with
  | .error e => ⟨.None, some e, [Event.getServer d.VmId]⟩
  | .ok vm => ⟨reconcileStatus vm.Status.State, none, [Event.getServer d.VmId]⟩

/-- Firewall half of `Driver.Remove`: fetch the policy by the stored id;
if found, delete it (a delete error is only logged); a fetch error is only
logged. The returned handle is kept for the later `WaitUntilDeleted`
(nil — here `none` — after any error). -/
def removeFirewallStep (d : Driver) (api : API) : Option Firewall × List Event :=
  match api.GetFirewallPolicy d.FirewallId with
  | .ok fw =>
    match api.FirewallDelete fw.Id with
    | .ok fw2 => (some fw2, [Event.getFirewallPolicy d.FirewallId, Event.deleteFirewall fw.Id])
    | .error _ => (none, [Event.getFirewallPolicy d.FirewallId, Event.deleteFirewall fw.Id])
  | .error _ => (none, [Event.getFirewallPolicy d.FirewallId])

/-- Server half of `Driver.Remove`, symmetric to the firewall half. -/
def removeServerStep (d : Driver) (api : API) : Option Server × List Event :=
  match api.GetServer d.VmId with
  | .ok srv =>
    match api.ServerDelete srv.Id with
    | .ok srv2 => (some srv2, [Event.getServer d.VmId, Event.deleteServer srv.Id])
    | .error _ => (none, [Event.getServer d.VmId, Event.deleteServer srv.Id])
  | .error _ => (none, [Event.getServer d.VmId])

/-- The two trailing `WaitUntilDeleted` calls of `Driver.Remove`, guarded
by the nil checks on the handles. -/
def removeWaitEvents (fwOpt : Option Firewall) (srvOpt : Option Server) : List Event :=
  (match fwOpt with
   | some fw => [Event.waitFirewallDeleted fw.Id]
   | none => []) ++
  (match srvOpt with
   | some srv => [Event.waitServerDeleted srv.Id]
   | none => [])

/-- `Driver.Remove`: best-effort deletion of the firewall policy and the
server, then blocking waits; all failures are logged only and the method
ends with `return nil`; the record is not mutated. -/
def Remove (d : Driver) (api : API) : RemoveResult :=
  let fs := removeFirewallStep d api
  let ss := removeServerStep d api
  ⟨d, none, fs.2 ++ ss.2 ++ removeWaitEvents fs.1 ss.1⟩

/-- The `FirewallPolicyCreateData` literal built inside `Driver.Create`. -/
def firewallData (d : Driver) : FirewallPolicyCreateData :=
  { Name := "[Docker Machine] " ++ d.MachineName
  , Description := "Firewall policy for docker machine " ++ d.MachineName
  , Rules := [{ Protocol := "TCP", PortFrom := 1, PortTo := 65535, SourceIp := "0.0.0.0" }] }

/-- The `ServerCreateData` literal built inside `Driver.Create`; its
`FirewallPolicyId` field reads `d.FirewallId` from the record. -/
def serverData (d : Driver) (applianceId : String) : ServerCreateData :=
  { Name := "[Docker Machine] " ++ d.MachineName
  , Description := d.MachineName ++ " created by docker machine"
  , ApplianceId := applianceId
  , FirewallPolicyId := d.FirewallId
  , hardware :=
    { CoresPerProcessor := 1
    , Vcores := d.Cores
    , Ram := d.Ram
    , Hdds := [{ IsMain := true, Size := d.Ssd }] }
  , PowerOn := true }

/-- `Driver.Create` of the newest revision: image resolution, firewall
creation (id stored into the record at once), server creation (on failure
`d.Remove()` then return the error), id stored, the two state waits, the
re-fetch of the server whose error is ignored (`server, _ = ...`; a nil
handle then crashes on `server.Ips`), `server.Ips[0].Ip` (crashes when the
list is empty), SSH key generation (on failure return the error with no
cleanup), the readiness wait whose result is discarded, and the key
install (on failure `d.Remove()` then return the error). -/
def Create (d : Driver) (env : Env) : RunResult :=
  let ev1 : List Event := [Event.serverApplianceFindNewest "Linux" "Ubuntu" "Minimal" 64 true]
  match env.api.ServerApplianceFindNewest with
  | .error e => ⟨d, .err e, ev1⟩
  | .ok appliance =>
    let ev2 := ev1 ++ [Event.createFirewallPolicy (firewallData d)]
    match env.api.CreateFirewallPolicy (firewallData d) with
    | .error e => ⟨d, .err e, ev2⟩
    | .ok firewall =>
      let d1 : Driver := { d with FirewallId := firewall.Id }
      let ev3 := ev2 ++ [Event.createServer (serverData d1 appliance.Id)]
      match env.api.CreateServer (serverData d1 appliance.Id) with
      | .error e =>
        let r := Remove d1 env.api
        ⟨r.driver, .err e, ev3 ++ r.events⟩
      | .ok server =>
        let d2 : Driver := { d1 with VmId := server.Id }
        let ev4 := ev3 ++ [Event.waitFirewallState firewall.Id "ACTIVE",
          Event.waitServerState server.Id "POWERED_ON", Event.getServer d2.VmId]
        match env.api.GetServer d2.VmId with
        | .error _ => ⟨d2, .crash "nil server dereference", ev4⟩
        | .ok server2 =>
          match server2.Ips with
          | [] => ⟨d2, .crash "index out of range", ev4⟩
          | ipEntry :: _ =>
            let d3 : Driver := { d2 with IPAddress := ipEntry.Ip }
            let ev5 := ev4 ++ [Event.generateSSHKey (GetSSHKeyPath d3)]
            match env.generateSSHKey with
            | .error e => ⟨d3, .err e, ev5⟩
            | .ok _ =>
              let ev6 := ev5 ++ [Event.waitForServerReady server.Id, Event.installSshKey server.Id]
              match env.installSshKey with
              | .error e =>
                let r := Remove d3 env.api
                ⟨r.driver, .err e, ev6 ++ r.events⟩
              | .ok _ => ⟨d3, .ok, ev6⟩

/-- `Driver.Start`: fetch by stored id, wrap and return a fetch error,
otherwise `server.Start()` and wrap and return its error. -/
def Start (d : Driver) (api : API) : OpResult :=
  match api.GetServer d.VmId with
  | .error e => ⟨some ("Failed to start the 1&1 CloudServer: " ++ e), [Event.getServer d.VmId]⟩
  | .ok server =>
    match api.ServerStart server.Id with
    | .error e =>
      ⟨some ("Failed to start the 1&1 CloudServer: " ++ e),
        [Event.getServer d.VmId, Event.serverStart server.Id]⟩
    | .ok _ => ⟨none, [Event.getServer d.VmId, Event.serverStart server.Id]⟩

/-- `Driver.Stop`: fetch by stored id, then `server.Shutdown(false)`. -/
def Stop (d : Driver) (api : API) : OpResult :=
  match api.GetServer d.VmId with
  | .error e => ⟨some ("Failed to stop the 1&1 CloudServer: " ++ e), [Event.getServer d.VmId]⟩
  | .ok server =>
    match api.ServerShutdown server.Id false with
    | .error e =>
      ⟨some ("Failed to stop the 1&1 CloudServer: " ++ e),
        [Event.getServer d.VmId, Event.serverShutdown server.Id false]⟩
    | .ok _ => ⟨none, [Event.getServer d.VmId, Event.serverShutdown server.Id false]⟩

/-- `Driver.Restart`: fetch by stored id, then `server.Reboot(false)`. -/
def Restart (d : Driver) (api : API) : OpResult :=
  match api.GetServer d.VmId with
  | .error e => ⟨some ("Failed to restart the 1&1 CloudServer: " ++ e), [Event.getServer d.VmId]⟩
  | .ok server =>
    match api.ServerReboot server.Id false with
    | .error e =>
      ⟨some ("Failed to restart the 1&1 CloudServer: " ++ e),
        [Event.getServer d.VmId, Event.serverReboot server.Id false]⟩
    | .ok _ => ⟨none, [Event.getServer d.VmId, Event.serverReboot server.Id false]⟩

/-- `Driver.Kill`: fetch by stored id, then `server.Shutdown(true)`. -/
def Kill (d : Driver) (api : API) : OpResult :=
  match api.GetServer d.VmId with
  | .error e => ⟨some ("Failed to kill the 1&1 CloudServer: " ++ e), [Event.getServer d.VmId]⟩
  | .ok server =>
    match api.ServerShutdown server.Id true with
    | .error e =>
      ⟨some ("Failed to kill the 1&1 CloudServer: " ++ e),
        [Event.getServer d.VmId, Event.serverShutdown server.Id true]⟩
    | .ok _ => ⟨none, [Event.getServer d.VmId, Event.serverShutdown server.Id true]⟩

/-- Flag values handed to `SetConfigFromFlags` (`drivers.DriverOptions`);
`flags.Int` of an absent option yields 0. -/
structure DriverOptions where
  endpoint : String
  accessToken : String
  cores : Int
  ram : Int
  ssd : Int
deriving DecidableEq

/-- `Driver.SetConfigFromFlags` of the newest revision: endpoint and token
must be non-empty; each sizing value of 0 is replaced by its minimum
before the range check; the method issues no remote-client call on any
path (its Go body contains none), hence the constant empty event list. -/
def SetConfigFromFlags (d : Driver) (flags : DriverOptions) : ConfigResult :=
  if flags.endpoint = "" then
    ⟨{ d with Endpoint := flags.endpoint },
      some "oneandone driver requires the --oneandone-endpoint option", []⟩
  else
  if flags.accessToken = "" then
    ⟨{ d with Endpoint := flags.endpoint, AccessToken := flags.accessToken },
      some "oneandone driver requires the --oneandone-access-token option", []⟩
  else
  let cores := if flags.cores = 0 then minCores else flags.cores
  if cores < minCores ∨ cores > maxCores then
    ⟨{ d with Endpoint := flags.endpoint, AccessToken := flags.accessToken, Cores := cores },
      some "oneandone driver requires the --oneandone-cores option to be an integer (1-16)", []⟩
  else
  let ram := if flags.ram = 0 then minRam else flags.ram
  if ram < minRam ∨ ram > maxRam then
    ⟨{ d with
        Endpoint := flags.endpoint
        AccessToken := flags.accessToken
        Cores := cores
        Ram := ram },
      some "oneandone driver requires the --oneandone-ram option to be an integer (1-128)", []⟩
  else
  let ssd := if flags.ssd = 0 then minSsd else flags.ssd
  if ssd < minSsd ∨ ssd > maxSsd ∨ Int.tmod ssd stepSsd ≠ 0 then
    ⟨{ d with
        Endpoint := flags.endpoint
        AccessToken := flags.accessToken
        Cores := cores
        Ram := ram
        Ssd := ssd },
      some "oneandone driver requires the --oneandone-ssd option to be an integer (20-500, steps of 20)", []⟩
  else
  ⟨{ d with
      Endpoint := flags.endpoint
      AccessToken := flags.accessToken
      Cores := cores
      Ram := ram
      Ssd := ssd }, none, []⟩

/-- Result of `getIntValueFromSSHCommand` as used by `isAptUpToDate`: on
an error the Go variable keeps its zero value and the function proceeds. -/
def intOrZero (r : Except Err Int) : Int :=
  match r with
  | .ok v => v
  | .error _ => 0

/-- `isAptUpToDate` of utils.go: fetch the last-modified timestamp of
/var/cache/apt and the current remote time (each 0 on a fetch error),
and return true exactly when their difference is below 30 seconds. -/
def isAptUpToDate (lastRunResult currentTimeResult : Except Err Int) : Bool :=
  let lastRun := intOrZero lastRunResult
  let currentTime := intOrZero currentTimeResult
  let diff := currentTime - lastRun
  if diff < 30 then true else false

/-- Predicate for delete-firewall events. -/
def isDeleteFirewallEvent : Event → Bool
  | .deleteFirewall _ => true
  | _ => false

/-- Predicate for delete-server events. -/
def isDeleteServerEvent : Event → Bool
  | .deleteServer _ => true
  | _ => false

/-- Number of delete-firewall calls in a trace. -/
def countDeleteFirewall (evs : List Event) : Nat := evs.countP isDeleteFirewallEvent

/-- Number of delete-server calls in a trace. -/
def countDeleteServer (evs : List Event) : Nat := evs.countP isDeleteServerEvent

/-! Concrete fixtures: a configured record and mock clients for the
scenario theorems. -/

def appW : Appliance := ⟨"app-1", "Ubuntu Minimal"⟩

def fwW : Firewall := ⟨"fw-1", "[Docker Machine] machine1"⟩

def srvW : Server := ⟨"vm-1", "[Docker Machine] machine1", ⟨"POWERED_ON"⟩, [⟨"10.0.0.1"⟩], "rootpw"⟩

def srvNoIps : Server := ⟨"vm-1", "[Docker Machine] machine1", ⟨"POWERED_ON"⟩, [], "rootpw"⟩

def dInit : Driver :=
  ⟨"https://cloudpanel-api.1and1.com", "token", "", "", "machine1", "", "", "/store", "", 1, 1, 20⟩

def dProvisioned : Driver := { dInit with VmId := "vm-1", FirewallId := "fw-1" }

/-- Mock client on which every call succeeds. -/
def apiAllOk : API :=
  ⟨.ok appW, fun _ => .ok fwW, fun _ => .ok srvW, fun _ => .ok fwW, fun _ => .ok srvW,
    fun _ => .ok fwW, fun _ => .ok srvW, fun _ => .ok (), fun _ _ => .ok (), fun _ _ => .ok ()⟩

def envAllOk : Env := ⟨apiAllOk, .ok (), .ok (), .ok ()⟩

/-- Mock client that fails VM creation after firewall creation succeeded;
the created firewall policy can be fetched, no server exists. -/
def apiFailVM : API :=
  ⟨.ok appW, fun _ => .ok fwW, fun _ => .error "vm create boom", fun _ => .ok fwW,
    fun _ => .error "server not found", fun _ => .ok fwW, fun _ => .error "server not found",
    fun _ => .ok (), fun _ _ => .ok (), fun _ _ => .ok ()⟩

def envFailVM : Env := ⟨apiFailVM, .ok (), .ok (), .ok ()⟩

/-- Mock client on which every call succeeds but the server reports an
empty address list. -/
def apiNoIps : API :=
  { apiAllOk with CreateServer := fun _ => .ok srvNoIps, GetServer := fun _ => .ok srvNoIps }

def envNoIps : Env := ⟨apiNoIps, .ok (), .ok (), .ok ()⟩

/-- Environment in which provisioning succeeds and local SSH key
generation fails. -/
def envKeyGenFail : Env := ⟨apiAllOk, .error "keygen boom", .ok (), .ok ()⟩

/-- Claim C2: GetState maps POWERED_ON to Running, DEPLOYING to Error,
POWERING_ON to Starting, POWERED_OFF to Stopped, POWERING_OFF to
Stopping, and maps REBOOTING, REMOVING, CONFIGURING and every
unrecognized status string to None. -/
theorem getState_status_mapping :
    (∀ d api vm, api.GetServer d.VmId = .ok vm →
      (GetState d api).st = reconcileStatus vm.Status.State) ∧
    reconcileStatus "POWERED_ON" = .Running ∧
    reconcileStatus "DEPLOYING" = .Error ∧
    reconcileStatus "POWERING_ON" = .Starting ∧
    reconcileStatus "POWERED_OFF" = .Stopped ∧
    reconcileStatus "POWERING_OFF" = .Stopping ∧
    reconcileStatus "REBOOTING" = .None ∧
    reconcileStatus "REMOVING" = .None ∧
    reconcileStatus "CONFIGURING" = .None ∧
    (∀ s, s ∉ ["POWERING_ON", "REBOOTING", "POWERED_ON", "POWERED_OFF", "POWERING_OFF",
        "REMOVING", "CONFIGURING", "DEPLOYING"] → reconcileStatus s = .None) := by
  refine ⟨?_, by decide, by decide, by decide, by decide, by decide, by decide, by decide,
    by decide, ?_⟩
  · intro d api vm h
    simp [GetState, h]
  · intro s hs
    simp only [List.mem_cons, List.not_mem_nil, or_false] at hs
    push_neg at hs
    obtain ⟨n1, n2, n3, n4, n5, n6, n7, n8⟩ := hs
    simp [reconcileStatus, n1, n2, n3, n4, n5, n6, n7, n8]

/-- Witness for C2: a fetch that reports POWERED_ON yields Running, and
an unrecognized status yields None. -/
theorem getState_status_mapping_witness :
    (GetState dProvisioned apiAllOk).st = MachineState.Running ∧
    reconcileStatus "UNKNOWN_STATUS" = MachineState.None :=
  ⟨(getState_status_mapping.1 dProvisioned apiAllOk srvW rfl).trans getState_status_mapping.2.1,
   getState_status_mapping.2.2.2.2.2.2.2.2.2 "UNKNOWN_STATUS" (by decide)⟩

/-- Claim C3 counterexample: the cores value 0 lies outside 1..16, yet
SetConfigFromFlags returns no error, because a zero sizing value is
silently replaced by the minimum before the range check. -/
theorem setConfig_zero_cores_counterexample :
    ((0 : Int) < minCores ∨ (0 : Int) > maxCores) ∧
    (SetConfigFromFlags dInit ⟨"https://api", "token", 0, 1, 20⟩).err = none := by
  exact ⟨Or.inl (by decide), rfl⟩

/-- Claim C3 amended: for every sizing input whose cores value is nonzero
and outside 1..16, or whose ram value is nonzero and outside 1..128, or
whose ssd value is nonzero and outside 20..500 or not a multiple of 20,
SetConfigFromFlags returns an error and makes no remote call (a zero
sizing value is instead replaced by the minimum and passes validation). -/
theorem setConfig_rejects_nonzero_out_of_range (d : Driver) (flags : DriverOptions)
    (h : (flags.cores ≠ 0 ∧ (flags.cores < minCores ∨ flags.cores > maxCores)) ∨
         (flags.ram ≠ 0 ∧ (flags.ram < minRam ∨ flags.ram > maxRam)) ∨
         (flags.ssd ≠ 0 ∧ (flags.ssd < minSsd ∨ flags.ssd > maxSsd ∨
            Int.tmod flags.ssd stepSsd ≠ 0))) :
    ((SetConfigFromFlags d flags).err).isSome = true ∧
    (SetConfigFromFlags d flags).events = [] := by
  simp only [SetConfigFromFlags]
  split_ifs <;> try exact ⟨rfl, rfl⟩
  all_goals
    rcases h with ⟨hc0, hcr⟩ | ⟨hr0, hrr⟩ | ⟨hs0, hsr⟩ <;> tauto

/-- Witness for C3 amended: 17 cores is nonzero and out of range, and is
rejected with no remote call. -/
theorem setConfig_rejects_nonzero_out_of_range_witness :
    ((SetConfigFromFlags dInit ⟨"https://api", "token", 17, 1, 20⟩).err).isSome = true ∧
    (SetConfigFromFlags dInit ⟨"https://api", "token", 17, 1, 20⟩).events = [] :=
  setConfig_rejects_nonzero_out_of_range dInit ⟨"https://api", "token", 17, 1, 20⟩
    (Or.inl ⟨by decide, Or.inr (by decide)⟩)

/-- Claim C9 counterexample: with the cache last modified 100 seconds
before the current remote time (more than the 30-second threshold), the
claim predicts true but isAptUpToDate returns false. -/
theorem isAptUpToDate_direction_counterexample :
    isAptUpToDate (.ok 0) (.ok 100) = false ∧ (100 : Int) - 0 > 30 := by decide

/-- Claim C9 amended: isAptUpToDate returns true exactly when the current
remote time minus the cache last-modified timestamp is less than 30
seconds (a failed timestamp fetch contributes the zero value). -/
theorem isAptUpToDate_iff (lastRunResult currentTimeResult : Except Err Int) :
    isAptUpToDate lastRunResult currentTimeResult = true ↔
      intOrZero currentTimeResult - intOrZero lastRunResult < 30 := by
  simp only [isAptUpToDate]
  split <;> simp_all

/-- Witness for C9 amended: a 20-second-old cache timestamp makes
isAptUpToDate return true. -/
theorem isAptUpToDate_iff_witness : isAptUpToDate (.ok 70) (.ok 90) = true :=
  (isAptUpToDate_iff (.ok 70) (.ok 90)).mpr (by decide)

/-- Claim C1: when firewall creation succeeds, VM creation fails, the
created firewall policy can be fetched back and no server exists under
the stored (empty) VM id, Create issues exactly one delete-firewall call
and zero delete-server calls and returns the VM-creation error
unchanged. -/
theorem create_vm_failure_cleanup (d : Driver) (env : Env) (app : Appliance)
    (fw fw2 : Firewall) (e eGet : Err)
    (h1 : env.api.ServerApplianceFindNewest = .ok app)
    (h2 : env.api.CreateFirewallPolicy (firewallData d) = .ok fw)
    (h3 : env.api.CreateServer (serverData { d with FirewallId := fw.Id } app.Id) = .error e)
    (h4 : env.api.GetFirewallPolicy fw.Id = .ok fw2)
    (h5 : env.api.GetServer d.VmId = .error eGet) :
    (Create d env).outcome = .err e ∧
    countDeleteFirewall (Create d env).events = 1 ∧
    countDeleteServer (Create d env).events = 0 := by
  cases hdel : env.api.FirewallDelete fw2.Id <;>
    simp [Create, Remove, removeFirewallStep, removeServerStep, removeWaitEvents,
      countDeleteFirewall, countDeleteServer, isDeleteFirewallEvent, isDeleteServerEvent,
      h1, h2, h3, h4, h5, hdel, List.countP_append, List.countP_cons]

/-- Witness for C1 on the concrete mock client that fails VM creation. -/
theorem create_vm_failure_cleanup_witness :
    (Create dInit envFailVM).outcome = .err "vm create boom" ∧
    countDeleteFirewall (Create dInit envFailVM).events = 1 ∧
    countDeleteServer (Create dInit envFailVM).events = 0 :=
  create_vm_failure_cleanup dInit envFailVM appW fwW fwW "vm create boom" "server not found"
    rfl rfl rfl rfl rfl

/-- Claim C4 counterexample: on a mock client on which provisioning
succeeds but the re-fetched server has an empty address list, Create
crashes with an index-out-of-range runtime panic and does not fail with
any error value (the code has no NoAddressAssignedError). -/
theorem create_empty_ips_counterexample :
    (Create dInit envNoIps).outcome = .crash "index out of range" ∧
    ∀ e, (Create dInit envNoIps).outcome ≠ .err e := by
  refine ⟨rfl, ?_⟩
  intro e h
  rw [show (Create dInit envNoIps).outcome = Outcome.crash "index out of range" from rfl] at h
  exact Outcome.noConfusion h

/-- Claim C4 amended: after the waits Create re-fetches the VM and sets
the record IP address to the first address of the returned list; if that
list is empty, Create crashes with an index-out-of-range runtime panic
instead of returning an error. -/
theorem create_ip_from_first_address (d : Driver) (env : Env) (app : Appliance)
    (fw : Firewall) (srv srv2 : Server)
    (h1 : env.api.ServerApplianceFindNewest = .ok app)
    (h2 : env.api.CreateFirewallPolicy (firewallData d) = .ok fw)
    (h3 : env.api.CreateServer (serverData { d with FirewallId := fw.Id } app.Id) = .ok srv)
    (h4 : env.api.GetServer srv.Id = .ok srv2) :
    (srv2.Ips = [] → (Create d env).outcome = .crash "index out of range") ∧
    ∀ ipEntry rest, srv2.Ips = ipEntry :: rest →
      (Create d env).driver.IPAddress = ipEntry.Ip := by
  constructor
  · intro h5
    simp [Create, h1, h2, h3, h4, h5]
  · intro ipEntry rest h5
    cases h6 : env.generateSSHKey with
    | error e => simp [Create, h1, h2, h3, h4, h5, h6]
    | ok u =>
      cases h7 : env.installSshKey with
      | error e => simp [Create, Remove, h1, h2, h3, h4, h5, h6, h7]
      | ok u => simp [Create, h1, h2, h3, h4, h5, h6, h7]

/-- Witness for C4 amended: on the all-success mock the record IP becomes
the first (and only) address of the mock server. -/
theorem create_ip_from_first_address_witness :
    (Create dInit envAllOk).driver.IPAddress = "10.0.0.1" := by
  have h := (create_ip_from_first_address dInit envAllOk appW fwW srvW srvW
    rfl rfl rfl rfl).2 ⟨"10.0.0.1"⟩ [] rfl
  exact h

/-- The server half of Remove always issues the fetch of the stored VM
id, whatever the firewall half did. -/
theorem mem_removeServerStep_get (d : Driver) (api : API) :
    Event.getServer d.VmId ∈ (removeServerStep d api).2 := by
  cases hsrv : api.GetServer d.VmId with
  | error e => simp [removeServerStep, hsrv]
  | ok srv => cases hdel : api.ServerDelete srv.Id <;> simp [removeServerStep, hsrv, hdel]

/-- When the server fetch succeeds, the server half of Remove issues the
delete-server call (whether or not that delete then fails). -/
theorem removeServerStep_delete (d : Driver) (api : API) (srv : Server)
    (h : api.GetServer d.VmId = .ok srv) :
    Event.deleteServer srv.Id ∈ (removeServerStep d api).2 := by
  cases hdel : api.ServerDelete srv.Id <;> simp [removeServerStep, h, hdel]

/-- When the firewall fetch succeeds, the firewall half of Remove issues
the delete-firewall call (whether or not that delete then fails). -/
theorem removeFirewallStep_delete (d : Driver) (api : API) (fw : Firewall)
    (h : api.GetFirewallPolicy d.FirewallId = .ok fw) :
    Event.deleteFirewall fw.Id ∈ (removeFirewallStep d api).2 := by
  cases hdel : api.FirewallDelete fw.Id <;> simp [removeFirewallStep, h, hdel]

/-- Claim C5: Remove never returns an error; it always proceeds to the
VM fetch regardless of the firewall outcome, and whenever a fetch
succeeds the corresponding delete is attempted, with no assumption on
the other resource or on the delete results (their failures are only
logged). -/
theorem remove_best_effort (d : Driver) (api : API) :
    (Remove d api).err = none ∧
    Event.getServer d.VmId ∈ (Remove d api).events ∧
    (∀ srv, api.GetServer d.VmId = .ok srv →
      Event.deleteServer srv.Id ∈ (Remove d api).events) ∧
    (∀ fw, api.GetFirewallPolicy d.FirewallId = .ok fw →
      Event.deleteFirewall fw.Id ∈ (Remove d api).events) := by
  refine ⟨rfl, ?_, ?_, ?_⟩
  · have h := mem_removeServerStep_get d api
    simp only [Remove, List.mem_append]
    tauto
  · intro srv hsrv
    have h := removeServerStep_delete d api srv hsrv
    simp only [Remove, List.mem_append]
    tauto
  · intro fw hfw
    have h := removeFirewallStep_delete d api fw hfw
    simp only [Remove, List.mem_append]
    tauto

/-- Witness for C5 on the all-success mock client. -/
theorem remove_best_effort_witness :
    (Remove dProvisioned apiAllOk).err = none ∧
    Event.deleteServer "vm-1" ∈ (Remove dProvisioned apiAllOk).events ∧
    Event.deleteFirewall "fw-1" ∈ (Remove dProvisioned apiAllOk).events :=
  ⟨(remove_best_effort dProvisioned apiAllOk).1,
   (remove_best_effort dProvisioned apiAllOk).2.2.1 srvW rfl,
   (remove_best_effort dProvisioned apiAllOk).2.2.2 fwW rfl⟩

/-- Claim C6: the firewall identifier returned by the create-firewall
call is stored in the record before the VM-creation call, so the server
creation data reads the non-empty identifier out of the record. -/
theorem firewall_id_stored_before_vm_creation (d : Driver) (env : Env) (app : Appliance)
    (fw : Firewall)
    (h1 : env.api.ServerApplianceFindNewest = .ok app)
    (h2 : env.api.CreateFirewallPolicy (firewallData d) = .ok fw)
    (h3 : fw.Id ≠ "") :
    Event.createServer (serverData { d with FirewallId := fw.Id } app.Id) ∈ (Create d env).events ∧
    (serverData { d with FirewallId := fw.Id } app.Id).FirewallPolicyId = fw.Id ∧
    ({ d with FirewallId := fw.Id } : Driver).FirewallId ≠ "" := by
  refine ⟨?_, rfl, h3⟩
  cases h4 : env.api.CreateServer (serverData { d with FirewallId := fw.Id } app.Id) with
  | error e => simp [Create, h1, h2, h4]
  | ok srv =>
    cases h5 : env.api.GetServer srv.Id with
    | error e => simp [Create, h1, h2, h4, h5]
    | ok srv2 =>
      cases h6 : srv2.Ips with
      | nil => simp [Create, h1, h2, h4, h5, h6]
      | cons ipE rest =>
        cases h7 : env.generateSSHKey with
        | error e => simp [Create, h1, h2, h4, h5, h6, h7]
        | ok u =>
          cases h8 : env.installSshKey with
          | error e => simp [Create, h1, h2, h4, h5, h6, h7, h8]
          | ok u => simp [Create, h1, h2, h4, h5, h6, h7, h8]

/-- Witness for C6 on the all-success mock client. -/
theorem firewall_id_stored_before_vm_creation_witness :
    Event.createServer (serverData { dInit with FirewallId := "fw-1" } "app-1")
      ∈ (Create dInit envAllOk).events ∧
    (serverData { dInit with FirewallId := "fw-1" } "app-1").FirewallPolicyId = "fw-1" ∧
    ({ dInit with FirewallId := "fw-1" } : Driver).FirewallId ≠ "" :=
  firewall_id_stored_before_vm_creation dInit envAllOk appW fwW rfl rfl (by decide)

/-- Claim C7 counterexample: Remove on a record holding both identifiers
leaves them set (non-empty); the code never clears VmId or FirewallId. -/
theorem remove_keeps_identifiers_counterexample :
    (Remove dProvisioned apiAllOk).driver.VmId = "vm-1" ∧
    (Remove dProvisioned apiAllOk).driver.FirewallId = "fw-1" ∧
    ("vm-1" : String) ≠ "" ∧ ("fw-1" : String) ≠ "" :=
  ⟨rfl, rfl, by decide, by decide⟩

/-- Claim C7 amended: Remove deletes the remote resources but leaves the
record — VmId and FirewallId included — completely unchanged. -/
theorem remove_leaves_record_unchanged (d : Driver) (api : API) :
    (Remove d api).driver = d := rfl

/-- Claim C8: each of Start, Stop, Restart and Kill first fetches the VM
by the stored identifier; on a fetch failure it returns an error and
issues no state-change call, and otherwise it issues exactly the
corresponding request: start, graceful shutdown, reboot, forced
shutdown. -/
theorem lifecycle_fetch_then_request (d : Driver) (api : API) :
    (∀ e, api.GetServer d.VmId = .error e →
      (Start d api).err = some ("Failed to start the 1&1 CloudServer: " ++ e) ∧
      (Stop d api).err = some ("Failed to stop the 1&1 CloudServer: " ++ e) ∧
      (Restart d api).err = some ("Failed to restart the 1&1 CloudServer: " ++ e) ∧
      (Kill d api).err = some ("Failed to kill the 1&1 CloudServer: " ++ e) ∧
      (Start d api).events = [Event.getServer d.VmId] ∧
      (Stop d api).events = [Event.getServer d.VmId] ∧
      (Restart d api).events = [Event.getServer d.VmId] ∧
      (Kill d api).events = [Event.getServer d.VmId]) ∧
    (∀ srv, api.GetServer d.VmId = .ok srv →
      (Start d api).events = [Event.getServer d.VmId, Event.serverStart srv.Id] ∧
      (Stop d api).events = [Event.getServer d.VmId, Event.serverShutdown srv.Id false] ∧
      (Restart d api).events = [Event.getServer d.VmId, Event.serverReboot srv.Id false] ∧
      (Kill d api).events = [Event.getServer d.VmId, Event.serverShutdown srv.Id true]) := by
  constructor
  · intro e h
    simp [Start, Stop, Restart, Kill, h]
  · intro srv h
    refine ⟨?_, ?_, ?_, ?_⟩
    · cases h2 : api.ServerStart srv.Id <;> simp [Start, h, h2]
    · cases h2 : api.ServerShutdown srv.Id false <;> simp [Stop, h, h2]
    · cases h2 : api.ServerReboot srv.Id false <;> simp [Restart, h, h2]
    · cases h2 : api.ServerShutdown srv.Id true <;> simp [Kill, h, h2]

/-- Witness for C8 on the all-success mock client. -/
theorem lifecycle_fetch_then_request_witness :
    (Start dProvisioned apiAllOk).events = [Event.getServer "vm-1", Event.serverStart "vm-1"] ∧
    (Stop dProvisioned apiAllOk).events
      = [Event.getServer "vm-1", Event.serverShutdown "vm-1" false] ∧
    (Restart dProvisioned apiAllOk).events
      = [Event.getServer "vm-1", Event.serverReboot "vm-1" false] ∧
    (Kill dProvisioned apiAllOk).events
      = [Event.getServer "vm-1", Event.serverShutdown "vm-1" true] :=
  (lifecycle_fetch_then_request dProvisioned apiAllOk).2 srvW rfl

/-- Claim C10: if local SSH key generation fails after the VM is created
and powered on, Create returns the key-generation error with no cleanup:
no delete-firewall or delete-server call is issued and the record keeps
its non-empty VmId and FirewallId. -/
theorem keygen_failure_no_cleanup (d : Driver) (env : Env) (app : Appliance) (fw : Firewall)
    (srv srv2 : Server) (ipEntry : ServerIp) (rest : List ServerIp) (e : Err)
    (h1 : env.api.ServerApplianceFindNewest = .ok app)
    (h2 : env.api.CreateFirewallPolicy (firewallData d) = .ok fw)
    (h3 : env.api.CreateServer (serverData { d with FirewallId := fw.Id } app.Id) = .ok srv)
    (h4 : env.api.GetServer srv.Id = .ok srv2)
    (h5 : srv2.Ips = ipEntry :: rest)
    (h6 : env.generateSSHKey = .error e)
    (h7 : fw.Id ≠ "") (h8 : srv.Id ≠ "") :
    (Create d env).outcome = .err e ∧
    countDeleteFirewall (Create d env).events = 0 ∧
    countDeleteServer (Create d env).events = 0 ∧
    (Create d env).driver.VmId = srv.Id ∧
    (Create d env).driver.FirewallId = fw.Id ∧
    (Create d env).driver.VmId ≠ "" ∧
    (Create d env).driver.FirewallId ≠ "" := by
  simp [Create, h1, h2, h3, h4, h5, h6, h7, h8, countDeleteFirewall, countDeleteServer,
    isDeleteFirewallEvent, isDeleteServerEvent, List.countP_append, List.countP_cons]

/-- Witness for C10 on the mock environment whose key generation fails. -/
theorem keygen_failure_no_cleanup_witness :
    (Create dInit envKeyGenFail).outcome = .err "keygen boom" ∧
    countDeleteFirewall (Create dInit envKeyGenFail).events = 0 ∧
    countDeleteServer (Create dInit envKeyGenFail).events = 0 ∧
    (Create dInit envKeyGenFail).driver.VmId = "vm-1" ∧
    (Create dInit envKeyGenFail).driver.FirewallId = "fw-1" ∧
    (Create dInit envKeyGenFail).driver.VmId ≠ "" ∧
    (Create dInit envKeyGenFail).driver.FirewallId ≠ "" :=
  keygen_failure_no_cleanup dInit envKeyGenFail appW fwW srvW srvW ⟨"10.0.0.1"⟩ [] "keygen boom"
    rfl rfl rfl rfl rfl rfl (by decide) (by decide)

end OneAndOne
